import Mathlib

/-!
# Verification of the `rusty-retro` LR35902 CPU core

A shallow embedding of the Game Boy CPU interpreter found in
`src/emu/src/gb/cpu/{alu,instruction,registers,mod}.rs` and
`src/emu/src/ram/mod.rs`, together with proofs about its ALU,
decoder, register file and step loop.

Conventions of the embedding:
* `u8` / `u16` values are `Nat`s; the Rust integer types are reflected by
  taking `% 256` (resp. `% 65536`) exactly where the Rust code performs a
  cast, a wrapping operation, or passes a value into a `u8`/`u16`-typed
  parameter or field.  Bit operations on low bits are expressed
  arithmetically: `x >> n` is `x / 2^n`, `x & 0xF` is `x % 16`,
  `x & 1` is `x % 2`, `x << 8 | y` with disjoint operands is `x * 256 + y`.
* Rust panics (`unimplemented!`, failed `assert_eq!`, `unreachable!`,
  `Option::unwrap` on `None`, out-of-bounds `Vec` indexing) are modelled as
  explicit error results, so that "the program panics here" is a provable,
  observable outcome.
* The two `bitflags` types `AluResultInfo` (alu.rs) and `FlagsRegister`
  (registers.rs) declare exactly the same four bits
  (Zero 0x80, Subtraction 0x40, HalfCarry 0x20, Carry 0x10), and every
  conversion between them in the source is
  `from_bits_truncate(other.bits())`, which is the identity on those four
  bits.  Both are therefore embedded as the single structure `Flags` of
  four `Bool`s; undefined bits cannot occur in either Rust type because
  every write goes through `from_bits_truncate` / `set` / `insert` /
  `remove`, which only touch declared bits.
-/

namespace RustyRetro

/-- The four condition-flag bits shared by `AluResultInfo` (alu.rs, bits
Zero 0x80 / Subtraction 0x40 / HalfCarry 0x20 / Carry 0x10) and
`FlagsRegister` (registers.rs, identical bit assignments). -/
structure Flags where
  zero : Bool
  subtraction : Bool
  halfCarry : Bool
  carry : Bool
  deriving Repr, DecidableEq

/-- The bitflags method `empty()`: no flag set. -/
def Flags.empty : Flags := ⟨false, false, false, false⟩

/-- The method `FlagsRegister::all()`: every declared flag set. -/
def Flags.all : Flags := ⟨true, true, true, true⟩

/-- The method `bits()`: the backing `u8` of the bitflags value.  The four declared
bits all lie in the high nibble, so the low nibble of `bits()` is 0. -/
def Flags.bits (f : Flags) : Nat :=
  (if f.zero then 0x80 else 0) + (if f.subtraction then 0x40 else 0) +
    (if f.halfCarry then 0x20 else 0) + (if f.carry then 0x10 else 0)

/-- The method `from_bits_truncate(x)`: keep exactly the four declared bits of `x`,
dropping the rest. -/
def Flags.ofBits (x : Nat) : Flags :=
  ⟨x / 0x80 % 2 = 1, x / 0x40 % 2 = 1, x / 0x20 % 2 = 1, x / 0x10 % 2 = 1⟩

/-- The bitflags method `remove`: clear every bit of `m` in `f`. -/
def Flags.remove (f m : Flags) : Flags :=
  ⟨f.zero && !m.zero, f.subtraction && !m.subtraction,
    f.halfCarry && !m.halfCarry, f.carry && !m.carry⟩

/-- The bitflags method `insert`: set every bit of `g` in `f`. -/
def Flags.insert (f g : Flags) : Flags :=
  ⟨f.zero || g.zero, f.subtraction || g.subtraction,
    f.halfCarry || g.halfCarry, f.carry || g.carry⟩

/-- The bitflags intersection operator. -/
def Flags.inter (f g : Flags) : Flags :=
  ⟨f.zero && g.zero, f.subtraction && g.subtraction,
    f.halfCarry && g.halfCarry, f.carry && g.carry⟩

/-! ## ALU (alu.rs)

Each function takes `u8` operands (embedded as `Nat`s below 256) and an
optional carry-in, and returns `AluResult { res, info }`. -/

/-- Struct `AluResult` from alu.rs: a result byte plus the flag vector the
operation computed. -/
structure AluResult where
  res : Nat
  info : Flags
  deriving Repr, DecidableEq

/-- Function `add_with_carry(num1, num2, carry)` from alu.rs: two `overflowing_add`
steps (`num1 + num2`, then `+ carry`); Zero from the result, Subtraction
false, HalfCarry from the nibble sum, Carry if either step overflowed. -/
def add_with_carry (num1 num2 : Nat) (carry : Bool) : AluResult :=
  let c : Nat := if carry then 1 else 0
  let intermediate := (num1 + num2) % 256
  let carry1 := decide (256 ≤ num1 + num2)
  let result := (intermediate + c) % 256
  let carry2 := decide (256 ≤ intermediate + c)
  let half_carry := decide (0xF < num1 % 16 + num2 % 16 + c)
  { res := result
    info :=
      { zero := decide (result = 0)
        subtraction := false
        halfCarry := half_carry
        carry := carry1 || carry2 } }

/-- Function `subtract_with_carry(num1, num2, carry)` from alu.rs: two
`overflowing_sub` steps; Zero from the result, Subtraction true, HalfCarry
if the low nibble borrows, Carry if either step borrowed. -/
def subtract_with_carry (num1 num2 : Nat) (carry : Bool) : AluResult :=
  let c : Nat := if carry then 1 else 0
  let intermediate := (num1 + 256 - num2 % 256) % 256
  let borrow1 := decide (num1 < num2)
  let result := (intermediate + 256 - c) % 256
  let borrow2 := decide (intermediate < c)
  let half_borrow := decide (num1 % 16 < num2 % 16 + c)
  { res := result
    info :=
      { zero := decide (result = 0)
        subtraction := true
        halfCarry := half_borrow
        carry := borrow1 || borrow2 } }

/-- Function `bitwise_and` from alu.rs: HalfCarry forced true, Carry forced false. -/
def bitwise_and (num1 num2 : Nat) : AluResult :=
  let res := num1 &&& num2
  { res := res
    info := { zero := decide (res = 0), subtraction := false
              halfCarry := true, carry := false } }

/-- Function `bitwise_xor` from alu.rs: HalfCarry and Carry forced false. -/
def bitwise_xor (num1 num2 : Nat) : AluResult :=
  let res := num1 ^^^ num2
  { res := res
    info := { zero := decide (res = 0), subtraction := false
              halfCarry := false, carry := false } }

/-- Function `bitwise_or` from alu.rs: HalfCarry and Carry forced false. -/
def bitwise_or (num1 num2 : Nat) : AluResult :=
  let res := num1 ||| num2
  { res := res
    info := { zero := decide (res = 0), subtraction := false
              halfCarry := false, carry := false } }

/-- Function `rotate_left(num)` from alu.rs: `num.rotate_left(1)` on `u8`
(`(num * 2 + num / 128) % 256` for a byte); the flag vector starts
`empty()` and only Carry is assigned, from the input's bit 7. -/
def rotate_left (num : Nat) : AluResult :=
  { res := (num * 2 + num / 128) % 256
    info := { Flags.empty with carry := decide (num / 128 % 2 = 1) } }

/-- Function `rotate_right(num)` from alu.rs: `num.rotate_right(1)` on `u8`; only
Carry is assigned, from the input's bit 0. -/
def rotate_right (num : Nat) : AluResult :=
  { res := (num / 2 + num % 2 * 128) % 256
    info := { Flags.empty with carry := decide (num % 2 = 1) } }

/-- Function `rotate_left_through_carry(num, carry)` from alu.rs:
`(num << 1) | carry` as `u8`; only Carry is assigned, from bit 7. -/
def rotate_left_through_carry (num : Nat) (carry : Bool) : AluResult :=
  { res := (num * 2 + if carry then 1 else 0) % 256
    info := { Flags.empty with carry := decide (num / 128 % 2 = 1) } }

/-- Function `rotate_right_through_carry(num, carry)` from alu.rs:
`(num >> 1) | (carry << 7)` on `u8`; only Carry is assigned, from bit 0. -/
def rotate_right_through_carry (num : Nat) (carry : Bool) : AluResult :=
  { res := num % 256 / 2 + if carry then 128 else 0
    info := { Flags.empty with carry := decide (num % 2 = 1) } }

/-! ## Instruction decoder (instruction.rs) -/

/-- Enum `R8` from instruction.rs: the 3-bit 8-bit-operand selector; index 6 is
the `HLMem` indirect-memory sentinel. -/
inductive R8 where
  | B | C | D | E | H | L | HLMem | A
  deriving Repr, DecidableEq

/-- The num_enum derived `TryFromPrimitive` for `R8`: discriminants
`B=0, C=1, D=2, E=3, H=4, L=5, HLMem=6, A=7`; any other value is an
error (`none`). -/
def R8.tryFrom : Nat → Option R8
  | 0 => some .B | 1 => some .C | 2 => some .D | 3 => some .E
  | 4 => some .H | 5 => some .L | 6 => some .HLMem | 7 => some .A
  | _ => none

/-- Enum `R16` from instruction.rs: the 2-bit 16-bit-register selector. -/
inductive R16 where
  | BC | DE | HL | SP
  deriving Repr, DecidableEq

/-- Derived `TryFromPrimitive` for `R16`: `BC=0, DE=1, HL=2, SP=3`. -/
def R16.tryFrom : Nat → Option R16
  | 0 => some .BC | 1 => some .DE | 2 => some .HL | 3 => some .SP
  | _ => none

/-- Enum `R16Mem` from instruction.rs: the indirect-pair selector with the
HL-post-increment and HL-post-decrement modes. -/
inductive R16Mem where
  | BC | DE | HLInc | HLDec
  deriving Repr, DecidableEq

/-- Derived `TryFromPrimitive` for `R16Mem`: `BC=0, DE=1, HLInc=2, HLDec=3`. -/
def R16Mem.tryFrom : Nat → Option R16Mem
  | 0 => some .BC | 1 => some .DE | 2 => some .HLInc | 3 => some .HLDec
  | _ => none

/-- Modelled from the spec: the stack-pair selector `R16Stk` (§3/§4.2,
`register16_stack(p 0..3)` → {BC,DE,HL,AF}).  Its enum declaration is
missing from `src/emu/src/gb/cpu/instruction.rs` as given, although
registers.rs imports `R16Stk` from the instruction module and implements
`From<R16Stk> for Register16Bit` over exactly these four constructors;
the spec fixes the four entries and their order `BC, DE, HL, AF`. -/
inductive R16Stk where
  | BC | DE | HL | AF
  deriving Repr, DecidableEq

/-- Modelled from the spec: `TryFromPrimitive`-style lookup for `R16Stk`,
the spec's `register16_stack(p 0..3)` table: `BC=0, DE=1, HL=2, AF=3`. -/
def R16Stk.tryFrom : Nat → Option R16Stk
  | 0 => some .BC | 1 => some .DE | 2 => some .HL | 3 => some .AF
  | _ => none

/-- Struct `DecodedOpcode` from instruction.rs: the x/y/z bit fields of an
opcode byte. -/
structure DecodedOpcode where
  x : Nat
  y : Nat
  z : Nat
  deriving Repr, DecidableEq

/-- Accessor `DecodedOpcode::p`: `(y >> 1) & 0b11`. -/
def DecodedOpcode.p (d : DecodedOpcode) : Nat := d.y / 2 % 4

/-- Accessor `DecodedOpcode::q`: `y & 0b1`. -/
def DecodedOpcode.q (d : DecodedOpcode) : Nat := d.y % 2

/-- Accessor `DecodedOpcode::r8_y`: `R8::try_from(y)`; the source `.unwrap()`s the
result, so `none` here marks the panic of that unwrap. -/
def DecodedOpcode.r8_y (d : DecodedOpcode) : Option R8 := R8.tryFrom d.y

/-- Accessor `DecodedOpcode::r8_z`: `R8::try_from(z)`, unwrapped at the source. -/
def DecodedOpcode.r8_z (d : DecodedOpcode) : Option R8 := R8.tryFrom d.z

/-- Accessor `DecodedOpcode::r16_p`: `R16::try_from(p)`, unwrapped at the source. -/
def DecodedOpcode.r16_p (d : DecodedOpcode) : Option R16 := R16.tryFrom d.p

/-- Accessor `DecodedOpcode::r16mem_p`: `R16Mem::try_from(p)`, unwrapped at the
source. -/
def DecodedOpcode.r16mem_p (d : DecodedOpcode) : Option R16Mem :=
  R16Mem.tryFrom d.p

/-- Conversion `From<u8> for DecodedOpcode`: `x = (v >> 6) & 0b11`,
`y = (v >> 3) & 0b111`, `z = v & 0b111`. -/
def DecodedOpcode.ofByte (v : Nat) : DecodedOpcode :=
  { x := v / 64 % 4, y := v / 8 % 8, z := v % 8 }

/-- Struct `Instruction` from instruction.rs: the raw opcode byte with its
decomposition. -/
structure Instruction where
  opcode : Nat
  decoded : DecodedOpcode
  deriving Repr, DecidableEq

/-- Conversion `From<u8> for Instruction`. -/
def Instruction.ofByte (v : Nat) : Instruction :=
  { opcode := v, decoded := DecodedOpcode.ofByte v }

/-! ## Register file (registers.rs) -/

/-- Enum `Register8Bit` from registers.rs: the seven real 8-bit cells. -/
inductive Register8Bit where
  | A | B | C | D | E | H | L
  deriving Repr, DecidableEq

/-- Conversion `TryFrom<R8> for Register8Bit`: every named register converts;
`R8::HLMem` is the `Err` case (the indirect sentinel never collapses into
a real register). -/
def Register8Bit.tryFromR8 : R8 → Option Register8Bit
  | .B => some .B | .C => some .C | .D => some .D | .E => some .E
  | .H => some .H | .L => some .L | .HLMem => none | .A => some .A

/-- Enum `Register16Bit` from registers.rs. -/
inductive Register16Bit where
  | AF | BC | DE | HL | SP | PC
  deriving Repr, DecidableEq

/-- Conversion `From<R16> for Register16Bit`. -/
def Register16Bit.ofR16 : R16 → Register16Bit
  | .BC => .BC | .DE => .DE | .HL => .HL | .SP => .SP

/-- Conversion `From<R16Mem> for Register16Bit`: both HL modes name the HL pair. -/
def Register16Bit.ofR16Mem : R16Mem → Register16Bit
  | .BC => .BC | .DE => .DE | .HLInc => .HL | .HLDec => .HL

/-- Conversion `From<R16Stk> for Register16Bit` from registers.rs (lines 70–80). -/
def Register16Bit.ofR16Stk : R16Stk → Register16Bit
  | .BC => .BC | .DE => .DE | .HL => .HL | .AF => .AF

/-- Struct `Registers` from registers.rs: seven `u8` cells, the flags register,
and the native 16-bit `sp`/`pc`. -/
structure Registers where
  a : Nat
  f : Flags
  b : Nat
  c : Nat
  d : Nat
  e : Nat
  h : Nat
  l : Nat
  sp : Nat
  pc : Nat
  deriving Repr, DecidableEq

/-- Constructor `Registers::new()`: everything zeroed, flags empty. -/
def Registers.new : Registers :=
  { a := 0, f := Flags.empty, b := 0, c := 0, d := 0, e := 0, h := 0,
    l := 0, sp := 0, pc := 0 }

/-- Method `Registers::get_flags`. -/
def Registers.get_flags (r : Registers) : Flags := r.f

/-- Method `Registers::get_register_8bit`: direct cell read. -/
def Registers.get_register_8bit (r : Registers) : Register8Bit → Nat
  | .A => r.a | .B => r.b | .C => r.c | .D => r.d
  | .E => r.e | .H => r.h | .L => r.l

/-- Method `Registers::set_register_8bit`: direct cell write; `% 256` reflects
the `u8` type of the `val` parameter. -/
def Registers.set_register_8bit (r : Registers) (reg : Register8Bit)
    (val : Nat) : Registers :=
  match reg with
  | .A => { r with a := val % 256 }
  | .B => { r with b := val % 256 }
  | .C => { r with c := val % 256 }
  | .D => { r with d := val % 256 }
  | .E => { r with e := val % 256 }
  | .H => { r with h := val % 256 }
  | .L => { r with l := val % 256 }

/-- Method `Registers::get_register_16bit`: AF/BC/DE/HL compose big-endian from
two `u8` halves (`high << 8 | low`, i.e. `high * 256 + low`); AF's low
byte is `f.bits() & 0xF0`, which equals `f.bits` since the four flag bits
already occupy the high nibble; SP/PC pass through. -/
def Registers.get_register_16bit (r : Registers) : Register16Bit → Nat
  | .AF => r.a * 256 + r.f.bits
  | .BC => r.b * 256 + r.c
  | .DE => r.d * 256 + r.e
  | .HL => r.h * 256 + r.l
  | .SP => r.sp
  | .PC => r.pc

/-- Method `Registers::set_register_16bit`: `low = val & 0x00FF`,
`high = val >> 8`; AF writes `high` to `a` and
`from_bits_truncate(low & 0xF0)` to the flags; SP/PC store `val`
natively.  The `% 256` on `high` and `% 65536` on SP/PC reflect the `u16`
type of `val`. -/
def Registers.set_register_16bit (r : Registers) (reg : Register16Bit)
    (val : Nat) : Registers :=
  let low := val % 256
  let high := val / 256 % 256
  match reg with
  | .AF => { r with a := high, f := Flags.ofBits (low / 16 * 16) }
  | .BC => { r with b := high, c := low }
  | .DE => { r with d := high, e := low }
  | .HL => { r with h := high, l := low }
  | .SP => { r with sp := val % 65536 }
  | .PC => { r with pc := val % 65536 }

/-- Method `Registers::set_flags_from_alu_res_info(res_info, mask)`: remove the
mask bits from `f`, then insert `res_info & mask` (the
`from_bits_truncate(res_info.bits())` conversion is the identity on the
four flag bits). -/
def Registers.set_flags_from_alu_res_info (r : Registers)
    (res_info mask : Flags) : Registers :=
  { r with f := (r.f.remove mask).insert (res_info.inter mask) }

/-- Method `Registers::set_flags(new_flags, mask)`: identical body — clear the
mask bits, then set `new_flags & mask`. -/
def Registers.set_flags (r : Registers) (new_flags mask : Flags) :
    Registers :=
  { r with f := (r.f.remove mask).insert (new_flags.inter mask) }

/-! ## Raw memory (ram/mod.rs)

`Ram<u8>` is a `Vec<u8>` of fixed length created by `Ram::new`; `read`
and `write` index the vector directly, so an address outside
`0 .. len-1` panics (Rust slice indexing).  `none` below marks exactly
that panic; there is no error-return path in the source. -/

/-- Struct `Ram<u8>` from ram/mod.rs: the backing `Vec<u8>`. -/
structure Ram where
  arr : List Nat
  deriving Repr, DecidableEq

/-- Constructor `Ram::new(addr_space)`: a zero-filled vector of length `addr_space`. -/
def Ram.new (addr_space : Nat) : Ram :=
  { arr := List.replicate addr_space 0 }

/-- Method `Ram::read(addr)`: `self.arr[addr]`; out-of-range indexing panics
(`none`). -/
def Ram.read (r : Ram) (addr : Nat) : Option Nat :=
  r.arr.get? addr

/-- Method `Ram::write(addr, data)`: `self.arr[addr] = data`; out-of-range
indexing panics (`none`).  `% 256` reflects the `u8` element type. -/
def Ram.write (r : Ram) (addr data : Nat) : Option Ram :=
  if addr < r.arr.length then some { arr := r.arr.set addr (data % 256) }
  else none

/-! ## Execution engine (gb/cpu/mod.rs)

`LR35902` owns a `Registers` and an `Rc<RefCell<Ram<u8>>>`.  The CPU is
driven against a `Ram` covering the full 65536-byte Game Boy address
space (as the repository's own tests construct it with
`Ram::new(0x10000)`); every address the CPU forms is a `u16` cast to
`usize` and is therefore always in range, so the CPU-level memory is
embedded as a total byte-valued function on addresses.  The `% 256` on
reads reflects the `u8` element type of the stored data. -/

/-- Struct `LR35902` state: the register file plus the memory collaborator. -/
structure CpuState where
  registers : Registers
  mem : Nat → Nat

/-- A Rust panic site inside the step loop. -/
inductive EmuError where
  /-- Panic `unimplemented!()` on the fall-through arm of `handle_block0`. -/
  | unimplemented
  /-- Panic `unimplemented!("HALT")` for the reserved `y=110, z=110`
  pattern of `handle_block1`. -/
  | haltUnimplemented
  /-- Panic of a failed `assert_eq!` at the top of a block handler. -/
  | assertFailed
  /-- Panic of `Option::unwrap` / `TryFromPrimitive` conversion inside a
  decoder accessor or `Register8Bit::try_from`. -/
  | unwrapPanic
  /-- Panic of an `unreachable!()` arm. -/
  | unreachableHit
  deriving Repr, DecidableEq

/-- Outcome of one `step()`: either the post-instruction state, or a
panic together with the machine state at the moment of the panic (Rust
unwinding leaves all mutations made before the panic in place). -/
abbrev StepResult := Except (EmuError × CpuState) CpuState

/-- Memory read through the `Ram` collaborator (`ram.borrow().read`). -/
def CpuState.read (s : CpuState) (addr : Nat) : Nat := s.mem addr % 256

/-- Memory write through the `Ram` collaborator
(`ram.borrow_mut().write`). -/
def CpuState.writeMem (s : CpuState) (addr data : Nat) : CpuState :=
  { s with mem := fun x => if x = addr then data % 256 else s.mem x }

/-- Method `LR35902::fetch_imm8`: read memory at PC, then set PC to
`PC.wrapping_add(1)`; returns the byte and the updated state. -/
def fetch_imm8 (s : CpuState) : Nat × CpuState :=
  let pc := s.registers.get_register_16bit .PC
  let data := s.read pc
  (data, { s with
    registers := s.registers.set_register_16bit .PC ((pc + 1) % 65536) })

/-- Method `LR35902::fetch_imm16`: two `fetch_imm8`s, first byte low, second
high (`(high << 8) | low`). -/
def fetch_imm16 (s : CpuState) : Nat × CpuState :=
  let (low, s1) := fetch_imm8 s
  let (high, s2) := fetch_imm8 s1
  (high * 256 + low, s2)

/-- Method `LR35902::handle_block0`: loads, 16-bit arithmetic, rotates and misc,
keyed on `(p, q, z)` in the source's arm order; the fall-through arm is
`unimplemented!()`. -/
def handle_block0 (i : Instruction) (s : CpuState) : StepResult :=
  if i.decoded.x ≠ 0 then .error (.assertFailed, s) else
  match i.decoded.p, i.decoded.q, i.decoded.z with
  -- nop
  | _, 0, 0 => .ok s
  -- ld r16, imm16
  | _, 0, 1 =>
    let (imm, s1) := fetch_imm16 s
    match i.decoded.r16_p with
    | some dest =>
      .ok { s1 with registers :=
        (s1.registers.set_register_16bit (Register16Bit.ofR16 dest) imm) }
    | none => .error (.unwrapPanic, s1)
  -- ld [r16mem], a
  | _, 0, 2 =>
    match i.decoded.r16mem_p with
    | some destReg =>
      let destAddr :=
        s.registers.get_register_16bit (Register16Bit.ofR16Mem destReg)
      let a := s.registers.get_register_8bit .A
      let s1 := s.writeMem destAddr a
      match destReg with
      | .HLInc => .ok { s1 with registers :=
          (s1.registers.set_register_16bit .HL ((destAddr + 1) % 65536)) }
      | .HLDec => .ok { s1 with registers :=
          (s1.registers.set_register_16bit .HL ((destAddr + 65535) % 65536)) }
      | _ => .ok s1
    | none => .error (.unwrapPanic, s)
  -- ld a, [r16mem]
  | _, 1, 2 =>
    match i.decoded.r16mem_p with
    | some srcReg =>
      let srcAddr :=
        s.registers.get_register_16bit (Register16Bit.ofR16Mem srcReg)
      let srcData := s.read srcAddr
      let s1 := { s with
        registers := s.registers.set_register_8bit .A srcData }
      match srcReg with
      | .HLInc => .ok { s1 with registers :=
          (s1.registers.set_register_16bit .HL ((srcAddr + 1) % 65536)) }
      | .HLDec => .ok { s1 with registers :=
          (s1.registers.set_register_16bit .HL ((srcAddr + 65535) % 65536)) }
      | _ => .ok s1
    | none => .error (.unwrapPanic, s)
  -- ld [imm16], sp
  | 0, 1, 0 =>
    let (destAddr, s1) := fetch_imm16 s
    let sp := s1.registers.get_register_16bit .SP
    let s2 := s1.writeMem destAddr (sp % 256)
    let s3 := s2.writeMem ((destAddr + 1) % 65536) (sp / 256)
    .ok s3
  -- inc r16
  | _, 0, 3 =>
    match i.decoded.r16_p with
    | some r =>
      let cur := s.registers.get_register_16bit (Register16Bit.ofR16 r)
      .ok { s with registers :=
        (s.registers.set_register_16bit (Register16Bit.ofR16 r)
          ((cur + 1) % 65536)) }
    | none => .error (.unwrapPanic, s)
  -- dec r16
  | _, 1, 3 =>
    match i.decoded.r16_p with
    | some r =>
      let cur := s.registers.get_register_16bit (Register16Bit.ofR16 r)
      .ok { s with registers :=
        (s.registers.set_register_16bit (Register16Bit.ofR16 r)
          ((cur + 65535) % 65536)) }
    | none => .error (.unwrapPanic, s)
  -- add hl, r16
  | _, 1, 1 =>
    match i.decoded.r16_p with
    | some r =>
      let hl := s.registers.get_register_16bit .HL
      let addRegVal :=
        s.registers.get_register_16bit (Register16Bit.ofR16 r)
      let lower := add_with_carry (hl % 256) (addRegVal % 256) false
      let upper := add_with_carry (hl / 256 % 256) (addRegVal / 256 % 256)
        lower.info.carry
      let newHl := upper.res * 256 + lower.res
      let regs1 := s.registers.set_register_16bit .HL newHl
      .ok { s with registers :=
        (regs1.set_flags_from_alu_res_info upper.info
          ⟨false, true, true, true⟩) }
    | none => .error (.unwrapPanic, s)
  -- inc r8
  | _, _, 4 =>
    match i.decoded.r8_y with
    | some r8v =>
      let regOrMem := Register8Bit.tryFromR8 r8v
      let curVal := match regOrMem with
        | some reg => s.registers.get_register_8bit reg
        | none => s.read (s.registers.get_register_16bit .HL)
      let incVal := add_with_carry curVal 1 false
      let s1 := match regOrMem with
        | some reg =>
          { s with registers := s.registers.set_register_8bit reg incVal.res }
        | none =>
          s.writeMem (s.registers.get_register_16bit .HL) incVal.res
      .ok { s1 with registers :=
        (s1.registers.set_flags_from_alu_res_info incVal.info
          ⟨true, true, true, false⟩) }
    | none => .error (.unwrapPanic, s)
  -- dec r8
  | _, _, 5 =>
    match i.decoded.r8_y with
    | some r8v =>
      let regOrMem := Register8Bit.tryFromR8 r8v
      let curVal := match regOrMem with
        | some reg => s.registers.get_register_8bit reg
        | none => s.read (s.registers.get_register_16bit .HL)
      let decVal := subtract_with_carry curVal 1 false
      let s1 := match regOrMem with
        | some reg =>
          { s with registers := s.registers.set_register_8bit reg decVal.res }
        | none =>
          s.writeMem (s.registers.get_register_16bit .HL) decVal.res
      .ok { s1 with registers :=
        (s1.registers.set_flags_from_alu_res_info decVal.info
          ⟨true, true, true, false⟩) }
    | none => .error (.unwrapPanic, s)
  -- ld r8, imm8
  | _, _, 6 =>
    let (src, s1) := fetch_imm8 s
    match i.decoded.r8_y with
    | some r8v =>
      match Register8Bit.tryFromR8 r8v with
      | some reg =>
        .ok { s1 with registers := s1.registers.set_register_8bit reg src }
      | none =>
        .ok (s1.writeMem (s1.registers.get_register_16bit .HL) src)
    | none => .error (.unwrapPanic, s1)
  -- rlca
  | 0, 0, 7 =>
    let res := rotate_left (s.registers.get_register_8bit .A)
    let regs1 := s.registers.set_register_8bit .A res.res
    .ok { s with registers :=
      (regs1.set_flags_from_alu_res_info res.info Flags.all) }
  -- rrca
  | 0, 1, 7 =>
    let res := rotate_right (s.registers.get_register_8bit .A)
    let regs1 := s.registers.set_register_8bit .A res.res
    .ok { s with registers :=
      (regs1.set_flags_from_alu_res_info res.info Flags.all) }
  -- rla
  | 1, 0, 7 =>
    let res := rotate_left_through_carry
      (s.registers.get_register_8bit .A) s.registers.get_flags.carry
    let regs1 := s.registers.set_register_8bit .A res.res
    .ok { s with registers :=
      (regs1.set_flags_from_alu_res_info res.info Flags.all) }
  -- rra
  | 1, 1, 7 =>
    let res := rotate_right_through_carry
      (s.registers.get_register_8bit .A) s.registers.get_flags.carry
    let regs1 := s.registers.set_register_8bit .A res.res
    .ok { s with registers :=
      (regs1.set_flags_from_alu_res_info res.info Flags.all) }
  | _, _, _ => .error (.unimplemented, s)

/-- Method `LR35902::handle_block1`: 8-bit moves; the exact `y=110, z=110`
pattern is `unimplemented!("HALT")` ahead of the generic copy. -/
def handle_block1 (i : Instruction) (s : CpuState) : StepResult :=
  if i.decoded.x ≠ 1 then .error (.assertFailed, s) else
  if i.decoded.y = 6 ∧ i.decoded.z = 6 then .error (.haltUnimplemented, s)
  else
    match i.decoded.r8_z with
    | none => .error (.unwrapPanic, s)
    | some srcSel =>
      let src := match Register8Bit.tryFromR8 srcSel with
        | some reg => s.registers.get_register_8bit reg
        | none => s.read (s.registers.get_register_16bit .HL)
      match i.decoded.r8_y with
      | none => .error (.unwrapPanic, s)
      | some dstSel =>
        match Register8Bit.tryFromR8 dstSel with
        | some reg =>
          .ok { s with registers := s.registers.set_register_8bit reg src }
        | none =>
          .ok (s.writeMem (s.registers.get_register_16bit .HL) src)

/-- Method `LR35902::handle_block2`: 8-bit ALU against the accumulator, operation
selected by `y`; `y=7` (CP) discards the result, everything else writes
it back to A; all four flags committed. -/
def handle_block2 (i : Instruction) (s : CpuState) : StepResult :=
  if i.decoded.x ≠ 2 then .error (.assertFailed, s) else
  let a := s.registers.get_register_8bit .A
  let f := s.registers.get_flags
  match i.decoded.r8_z with
  | none => .error (.unwrapPanic, s)
  | some srcSel =>
    let src := match Register8Bit.tryFromR8 srcSel with
      | some reg => s.registers.get_register_8bit reg
      | none => s.read (s.registers.get_register_16bit .HL)
    let aluRes : Option AluResult := match i.decoded.y with
      | 0 => some (add_with_carry a src false)
      | 1 => some (add_with_carry a src f.carry)
      | 2 => some (subtract_with_carry a src false)
      | 3 => some (subtract_with_carry a src f.carry)
      | 4 => some (bitwise_and a src)
      | 5 => some (bitwise_xor a src)
      | 6 => some (bitwise_or a src)
      | 7 => some (subtract_with_carry a src false)
      | _ => none
    match aluRes with
    | none => .error (.unreachableHit, s)
    | some res =>
      let regs1 := if i.decoded.y ≠ 7 then
          s.registers.set_register_8bit .A res.res
        else s.registers
      .ok { s with registers :=
        (regs1.set_flags_from_alu_res_info res.info Flags.all) }

/-- Method `LR35902::handle_block3`: the body is only
`assert_eq!(instruction.decoded.x, 0b11)` — for an x=11 opcode the assert
passes and the handler returns without doing anything. -/
def handle_block3 (i : Instruction) (s : CpuState) : StepResult :=
  if i.decoded.x ≠ 3 then .error (.assertFailed, s) else .ok s

/-- Method `LR35902::step`: fetch one opcode via PC, decode, dispatch on `x`. -/
def step (s : CpuState) : StepResult :=
  let (opcode, s1) := fetch_imm8 s
  let instruction := Instruction.ofByte opcode
  match instruction.decoded.x with
  | 0 => handle_block0 instruction s1
  | 1 => handle_block1 instruction s1
  | 2 => handle_block2 instruction s1
  | 3 => handle_block3 instruction s1
  | _ => .error (.unreachableHit, s1)

/-! ## Well-formed register files

Every `Registers` value reachable in the Rust program satisfies these
bounds by the `u8`/`u16` field types; theorems over arbitrary states take
them as hypotheses. -/

/-- Field bounds enforced by the Rust `u8`/`u16` types of `Registers`. -/
def Registers.Wf (r : Registers) : Prop :=
  r.a < 256 ∧ r.b < 256 ∧ r.c < 256 ∧ r.d < 256 ∧ r.e < 256 ∧
    r.h < 256 ∧ r.l < 256 ∧ r.sp < 65536 ∧ r.pc < 65536

instance (r : Registers) : Decidable r.Wf :=
  inferInstanceAs (Decidable (r.a < 256 ∧ r.b < 256 ∧ r.c < 256 ∧
    r.d < 256 ∧ r.e < 256 ∧ r.h < 256 ∧ r.l < 256 ∧ r.sp < 65536 ∧
    r.pc < 65536))

/-! ## Claims -/

/-- C2. For all `a, b` in `0..255` and carry in `{0,1}`,
`add_with_carry(a, b, carry)` returns `(a+b+carry) mod 256`, Carry set iff
`a+b+carry > 255`, HalfCarry set iff `(a&0xF)+(b&0xF)+carry > 0xF`, Zero
set iff the result is 0, and Subtract false. -/
theorem add_with_carry_correct (a b : Nat) (carry : Bool)
    (ha : a < 256) (hb : b < 256) :
    (add_with_carry a b carry).res =
        (a + b + (if carry then 1 else 0)) % 256 ∧
      ((add_with_carry a b carry).info.carry = true ↔
        255 < a + b + (if carry then 1 else 0)) ∧
      ((add_with_carry a b carry).info.halfCarry = true ↔
        0xF < a % 16 + b % 16 + (if carry then 1 else 0)) ∧
      ((add_with_carry a b carry).info.zero = true ↔
        (add_with_carry a b carry).res = 0) ∧
      (add_with_carry a b carry).info.subtraction = false := by
  refine ⟨?_, ?_, ?_, ?_, ?_⟩ <;>
    cases carry <;>
      simp only [add_with_carry, decide_eq_true_eq, Bool.or_eq_true,
        if_true, if_false] <;>
      omega

/-- Witness for C2 at `a = 0xF5`, `b = 0xF5`, `carry = false` (the spec's
own worked example: result `0xEA`, Carry set). -/
theorem add_with_carry_correct_witness :
    (add_with_carry 0xF5 0xF5 false).res =
        (0xF5 + 0xF5 + (if false then 1 else 0)) % 256 ∧
      ((add_with_carry 0xF5 0xF5 false).info.carry = true ↔
        255 < 0xF5 + 0xF5 + (if false then 1 else 0)) ∧
      ((add_with_carry 0xF5 0xF5 false).info.halfCarry = true ↔
        0xF < 0xF5 % 16 + 0xF5 % 16 + (if false then 1 else 0)) ∧
      ((add_with_carry 0xF5 0xF5 false).info.zero = true ↔
        (add_with_carry 0xF5 0xF5 false).res = 0) ∧
      (add_with_carry 0xF5 0xF5 false).info.subtraction = false :=
  add_with_carry_correct 0xF5 0xF5 false (by decide) (by decide)

/-- C4. The method `set_flags(new_flags, mask)` commits exactly the bits in
`mask` from `new_flags` and leaves every flag bit outside `mask`
bit-for-bit unchanged; `set_flags_from_alu_res_info` behaves
identically. -/
theorem set_flags_masked (r : Registers) (new_flags mask : Flags) :
    ((r.set_flags new_flags mask).f.zero =
        (if mask.zero then new_flags.zero else r.f.zero) ∧
      (r.set_flags new_flags mask).f.subtraction =
        (if mask.subtraction then new_flags.subtraction
          else r.f.subtraction) ∧
      (r.set_flags new_flags mask).f.halfCarry =
        (if mask.halfCarry then new_flags.halfCarry else r.f.halfCarry) ∧
      (r.set_flags new_flags mask).f.carry =
        (if mask.carry then new_flags.carry else r.f.carry)) ∧
      r.set_flags_from_alu_res_info new_flags mask =
        r.set_flags new_flags mask := by
  obtain ⟨mz, ms, mh, mc⟩ := mask
  refine ⟨⟨?_, ?_, ?_, ?_⟩, rfl⟩ <;>
    simp only [Registers.set_flags, Flags.remove, Flags.insert,
      Flags.inter] <;>
    cases mz <;> cases ms <;> cases mh <;> cases mc <;> simp

/-- C5. All four rotate operations force Zero, Subtract and HalfCarry
to false regardless of the result (rotating 0 does not set Zero), and
Carry is the bit rotated out: bit 7 of the input for left rotates, bit 0
for right rotates. -/
theorem rotate_flags_forced (num : Nat) (carry : Bool) (h : num < 256) :
    ((rotate_left num).info.zero = false ∧
      (rotate_left num).info.subtraction = false ∧
      (rotate_left num).info.halfCarry = false ∧
      ((rotate_left num).info.carry = true ↔ num / 128 = 1)) ∧
    ((rotate_right num).info.zero = false ∧
      (rotate_right num).info.subtraction = false ∧
      (rotate_right num).info.halfCarry = false ∧
      ((rotate_right num).info.carry = true ↔ num % 2 = 1)) ∧
    ((rotate_left_through_carry num carry).info.zero = false ∧
      (rotate_left_through_carry num carry).info.subtraction = false ∧
      (rotate_left_through_carry num carry).info.halfCarry = false ∧
      ((rotate_left_through_carry num carry).info.carry = true ↔
        num / 128 = 1)) ∧
    ((rotate_right_through_carry num carry).info.zero = false ∧
      (rotate_right_through_carry num carry).info.subtraction = false ∧
      (rotate_right_through_carry num carry).info.halfCarry = false ∧
      ((rotate_right_through_carry num carry).info.carry = true ↔
        num % 2 = 1)) := by
  refine ⟨⟨rfl, rfl, rfl, ?_⟩, ⟨rfl, rfl, rfl, ?_⟩,
      ⟨rfl, rfl, rfl, ?_⟩, ⟨rfl, rfl, rfl, ?_⟩⟩ <;>
    simp only [rotate_left, rotate_right, rotate_left_through_carry,
      rotate_right_through_carry, Flags.empty, decide_eq_true_eq] <;>
    omega

/-- Witness for C5 at `num = 0x00`, `carry = false`: rotating zero yields
all four flags false (Zero is not set despite the zero result). -/
theorem rotate_flags_forced_witness :
    ((rotate_left 0x00).info.zero = false ∧
      (rotate_left 0x00).info.subtraction = false ∧
      (rotate_left 0x00).info.halfCarry = false ∧
      ((rotate_left 0x00).info.carry = true ↔ 0x00 / 128 = 1)) ∧
    ((rotate_right 0x00).info.zero = false ∧
      (rotate_right 0x00).info.subtraction = false ∧
      (rotate_right 0x00).info.halfCarry = false ∧
      ((rotate_right 0x00).info.carry = true ↔ 0x00 % 2 = 1)) ∧
    ((rotate_left_through_carry 0x00 false).info.zero = false ∧
      (rotate_left_through_carry 0x00 false).info.subtraction = false ∧
      (rotate_left_through_carry 0x00 false).info.halfCarry = false ∧
      ((rotate_left_through_carry 0x00 false).info.carry = true ↔
        0x00 / 128 = 1)) ∧
    ((rotate_right_through_carry 0x00 false).info.zero = false ∧
      (rotate_right_through_carry 0x00 false).info.subtraction = false ∧
      (rotate_right_through_carry 0x00 false).info.halfCarry = false ∧
      ((rotate_right_through_carry 0x00 false).info.carry = true ↔
        0x00 % 2 = 1)) :=
  rotate_flags_forced 0x00 false (by decide)

set_option maxRecDepth 4096

/-- The four declared flag bits of `from_bits_truncate` recompose to the
input with its low nibble cleared, for any byte. -/
theorem bits_ofBits (x : Nat) (hx : x < 256) :
    (Flags.ofBits x).bits = x / 16 * 16 := by
  revert hx; revert x; decide

/-- C6. Writing `v` to `Register16Bit::AF` and reading AF back yields
`v & 0xFFF0` (written `v / 16 * 16` for `v < 65536`): the write keeps
only the 4 valid flag bits of the low byte, and the read returns the
flags in canonical positions with the low nibble 0. -/
theorem af_write_read_masks (r : Registers) (v : Nat) (hv : v < 65536) :
    (r.set_register_16bit .AF v).get_register_16bit .AF = v / 16 * 16 := by
  have h := bits_ofBits (v % 256 / 16 * 16) (by omega)
  simp only [Registers.set_register_16bit, Registers.get_register_16bit, h]
  omega

/-- Witness for C6 at `v = 0xABCD`: reading back yields `0xABC0`. -/
theorem af_write_read_masks_witness :
    (Registers.new.set_register_16bit .AF 0xABCD).get_register_16bit .AF =
      0xABCD / 16 * 16 :=
  af_write_read_masks Registers.new 0xABCD (by decide)

/-- C8. The decoder lookup surface's stack-pair selector maps
`p = 0, 1, 2, 3` to `BC, DE, HL, AF` respectively (through the
`From<R16Stk> for Register16Bit` table of registers.rs). -/
theorem register16_stack_table :
    (R16Stk.tryFrom 0).map Register16Bit.ofR16Stk = some .BC ∧
      (R16Stk.tryFrom 1).map Register16Bit.ofR16Stk = some .DE ∧
      (R16Stk.tryFrom 2).map Register16Bit.ofR16Stk = some .HL ∧
      (R16Stk.tryFrom 3).map Register16Bit.ofR16Stk = some .AF := by
  decide

/-- C9. Decoding is total: every opcode byte yields `x < 4`, `y < 8`,
`z < 8`, `p < 4`, `q < 2`, and the selector accessors `r8_y`, `r8_z`,
`r16_p` and `r16mem_p` all succeed (their `unwrap`s cannot panic). -/
theorem decode_total (b : Nat) (hb : b < 256) :
    (DecodedOpcode.ofByte b).x < 4 ∧ (DecodedOpcode.ofByte b).y < 8 ∧
      (DecodedOpcode.ofByte b).z < 8 ∧ (DecodedOpcode.ofByte b).p < 4 ∧
      (DecodedOpcode.ofByte b).q < 2 ∧
      ((DecodedOpcode.ofByte b).r8_y).isSome = true ∧
      ((DecodedOpcode.ofByte b).r8_z).isSome = true ∧
      ((DecodedOpcode.ofByte b).r16_p).isSome = true ∧
      ((DecodedOpcode.ofByte b).r16mem_p).isSome = true := by
  revert hb; revert b; decide

/-- Witness for C9 at `b = 0xC3`. -/
theorem decode_total_witness :
    (DecodedOpcode.ofByte 0xC3).x < 4 ∧ (DecodedOpcode.ofByte 0xC3).y < 8 ∧
      (DecodedOpcode.ofByte 0xC3).z < 8 ∧
      (DecodedOpcode.ofByte 0xC3).p < 4 ∧
      (DecodedOpcode.ofByte 0xC3).q < 2 ∧
      ((DecodedOpcode.ofByte 0xC3).r8_y).isSome = true ∧
      ((DecodedOpcode.ofByte 0xC3).r8_z).isSome = true ∧
      ((DecodedOpcode.ofByte 0xC3).r16_p).isSome = true ∧
      ((DecodedOpcode.ofByte 0xC3).r16mem_p).isSome = true :=
  decode_total 0xC3 (by decide)

/-- C10. Construction `Ram::new(n)` reads `some 0` at every address below `n`;
reads and writes succeed exactly on addresses below the length, and out
of range they panic (`none`) — there is no in-domain error path. -/
theorem ram_domain (r : Ram) (n addr data : Nat) :
    (Ram.new n).read addr = (if addr < n then some 0 else none) ∧
      ((Ram.new n).write addr data).isSome = decide (addr < n) ∧
      (r.read addr).isSome = decide (addr < r.arr.length) ∧
      (r.write addr data).isSome = decide (addr < r.arr.length) := by
  refine ⟨?_, ?_, ?_, ?_⟩
  · simp [Ram.read, Ram.new, List.get?_eq_getElem?, List.getElem?_replicate]
  · simp only [Ram.write, Ram.new, List.length_replicate]
    split <;> simp_all
  · rcases Nat.lt_or_ge addr r.arr.length with h | h
    · simp [Ram.read, List.get?_eq_getElem?, List.getElem?_eq_getElem h, h]
    · simp [Ram.read, List.get?_eq_getElem?, List.getElem?_eq_none h,
        Nat.not_lt.mpr h]
  · simp only [Ram.write]
    split <;> simp_all

/-! ### Helper lemmas for the step loop

For every opcode byte, a block handler that returns an error does so
before mutating anything: the state it carries at the panic point is
exactly the state it was given. -/

set_option maxHeartbeats 2000000

/-- Block-0 handlers never mutate state before a panic. -/
theorem handle_block0_error_state (b : Nat) (hb : b < 64) (s : CpuState)
    (e : EmuError) (s' : CpuState)
    (h : handle_block0 (Instruction.ofByte b) s = .error (e, s')) :
    s' = s := by
  interval_cases b <;>
    simp_all [handle_block0, Instruction.ofByte, DecodedOpcode.ofByte,
      DecodedOpcode.p, DecodedOpcode.q, DecodedOpcode.r16_p,
      DecodedOpcode.r16mem_p, DecodedOpcode.r8_y, R16.tryFrom,
      R16Mem.tryFrom, R8.tryFrom, Register8Bit.tryFromR8]

/-- Block-1 handlers never mutate state before a panic (the HALT panic
fires before the move is performed). -/
theorem handle_block1_error_state (b : Nat) (hb1 : 64 ≤ b)
    (hb2 : b < 128) (s : CpuState) (e : EmuError) (s' : CpuState)
    (h : handle_block1 (Instruction.ofByte b) s = .error (e, s')) :
    s' = s := by
  interval_cases b <;>
    simp_all [handle_block1, Instruction.ofByte, DecodedOpcode.ofByte,
      DecodedOpcode.r8_y, DecodedOpcode.r8_z, R8.tryFrom,
      Register8Bit.tryFromR8]

/-- Block-2 handlers never mutate state before a panic (in fact none of
their panic paths is reachable for a real opcode byte). -/
theorem handle_block2_error_state (b : Nat) (hb1 : 128 ≤ b)
    (hb2 : b < 192) (s : CpuState) (e : EmuError) (s' : CpuState)
    (h : handle_block2 (Instruction.ofByte b) s = .error (e, s')) :
    s' = s := by
  interval_cases b <;>
    simp_all [handle_block2, Instruction.ofByte, DecodedOpcode.ofByte,
      DecodedOpcode.r8_z, R8.tryFrom, Register8Bit.tryFromR8]

/-- Block-3 handlers never mutate state and never panic on a real x=11
opcode byte. -/
theorem handle_block3_error_state (b : Nat) (hb1 : 192 ≤ b)
    (hb2 : b < 256) (s : CpuState) (e : EmuError) (s' : CpuState)
    (h : handle_block3 (Instruction.ofByte b) s = .error (e, s')) :
    s' = s := by
  interval_cases b <;>
    simp_all [handle_block3, Instruction.ofByte, DecodedOpcode.ofByte]

/-! ### C1: the x=11 block is silently ignored -/

/-- A fresh CPU (all registers zero) over memory whose byte 0 is the
x=11 opcode `0xC3` (JP a16 on real hardware). -/
def jpOpcodeState : CpuState :=
  { registers := Registers.new, mem := fun a => if a = 0 then 0xC3 else 0 }

/-- C1. Contrary to the claim, executing `step()` on the x=11 opcode
`0xC3` does **not** fail with a reportable unimplemented-instruction
condition: `handle_block3`'s body is only the `assert_eq!` on `x`, so the
step returns successfully having done nothing except the PC increment of
the opcode fetch — the opcode is silently treated as a NOP, and neither
the opcode nor the PC is reported anywhere. -/
theorem x11_opcode_silently_ignored :
    step jpOpcodeState = .ok { jpOpcodeState with
      registers := { Registers.new with pc := 1 } } := rfl

/-! ### C7: step atomicity -/

/-- C7 as stated is false: a fresh CPU whose memory holds the
reserved HALT opcode `0x76` at address 0.  `step` fails (the
`unimplemented!("HALT")` panic), but the state at the panic point has
`PC = 1` — the PC increment from the opcode fetch is observable partial
execution, contradicting "no register, including PC, differs". -/
def haltOpcodeState : CpuState :=
  { registers := Registers.new, mem := fun a => if a = 0 then 0x76 else 0 }

/-- Counterexample for C7: on the HALT opcode the step fails, yet the
machine state at the failure has PC = 1 ≠ 0: a register differs from the
pre-step state in the failing case. -/
theorem step_halt_failure_changes_pc :
    step haltOpcodeState = .error (.haltUnimplemented,
      { haltOpcodeState with registers := { Registers.new with pc := 1 } }) ∧
    ({ Registers.new with pc := 1 } : Registers) ≠
      haltOpcodeState.registers :=
  ⟨rfl, by decide⟩

/-- C7, amended. Each `step()` either fully executes one instruction
or fails; in the failing case the only observable change relative to the
pre-step state is the PC increment performed by the opcode fetch
(`PC' = (PC + 1) mod 65536`): every other register and flag, and every
memory byte, is unchanged at the failure point. -/
theorem step_failure_changes_only_pc (s : CpuState) (e : EmuError)
    (s' : CpuState) (h : step s = .error (e, s')) :
    s'.registers = { s.registers with
      pc := (s.registers.pc + 1) % 65536 } ∧ s'.mem = s.mem := by
  have hb : s.read (s.registers.get_register_16bit .PC) < 256 := by
    simp only [CpuState.read]
    omega
  simp only [step, fetch_imm8] at h
  split at h
  all_goals rename_i heq
  · have hs := handle_block0_error_state _ (by
      simp only [Instruction.ofByte, DecodedOpcode.ofByte] at heq
      omega) _ _ _ h
    subst hs
    refine ⟨?_, rfl⟩
    simp only [Registers.set_register_16bit, Registers.get_register_16bit,
      Registers.mk.injEq, true_and]
    omega
  · have hs := handle_block1_error_state _ (by
      simp only [Instruction.ofByte, DecodedOpcode.ofByte] at heq
      omega) (by
      simp only [Instruction.ofByte, DecodedOpcode.ofByte] at heq
      omega) _ _ _ h
    subst hs
    refine ⟨?_, rfl⟩
    simp only [Registers.set_register_16bit, Registers.get_register_16bit,
      Registers.mk.injEq, true_and]
    omega
  · have hs := handle_block2_error_state _ (by
      simp only [Instruction.ofByte, DecodedOpcode.ofByte] at heq
      omega) (by
      simp only [Instruction.ofByte, DecodedOpcode.ofByte] at heq
      omega) _ _ _ h
    subst hs
    refine ⟨?_, rfl⟩
    simp only [Registers.set_register_16bit, Registers.get_register_16bit,
      Registers.mk.injEq, true_and]
    omega
  · have hs := handle_block3_error_state _ (by
      simp only [Instruction.ofByte, DecodedOpcode.ofByte] at heq
      omega) (by
      simp only [Instruction.ofByte, DecodedOpcode.ofByte] at heq
      omega) _ _ _ h
    subst hs
    refine ⟨?_, rfl⟩
    simp only [Registers.set_register_16bit, Registers.get_register_16bit,
      Registers.mk.injEq, true_and]
    omega
  · exfalso
    rename_i h0 h1 h2
    simp only [Instruction.ofByte, DecodedOpcode.ofByte, imp_false]
      at h0 h1 h2 heq
    omega

/-- A fresh CPU whose memory holds the opcode `0x27` (DAA on real
hardware), which falls through to `handle_block0`'s `unimplemented!()`
arm. -/
def daaOpcodeState : CpuState :=
  { registers := Registers.new, mem := fun a => if a = 0 then 0x27 else 0 }

/-- The machine state `step daaOpcodeState` carries at its panic point. -/
def daaPanicState : CpuState :=
  { daaOpcodeState with registers := { Registers.new with pc := 1 } }

/-- Witness for the amended C7 at the concrete failing opcode `0x27`. -/
theorem step_failure_changes_only_pc_witness :
    daaPanicState.registers = { daaOpcodeState.registers with
      pc := (daaOpcodeState.registers.pc + 1) % 65536 } ∧
    daaPanicState.mem = daaOpcodeState.mem :=
  step_failure_changes_only_pc daaOpcodeState .unimplemented
    daaPanicState rfl

/-! ### C3: ADD HL, r16 -/

/-- C3. Executing an `ADD HL, r16` opcode (`x=00, q=1, z=001`)
computes the new HL as two chained 8-bit adds — low bytes first with no
carry-in, that add's carry-out feeding the high-byte add — and commits
exactly Carry, HalfCarry and Subtract from the high-byte add while the
Zero flag keeps its pre-instruction value. -/
theorem add_hl_chains_byte_adds (s : CpuState) (b : Nat) (r16sel : R16)
    (hwf : s.registers.Wf) (hb : b < 256)
    (hx : b / 64 = 0) (hq : b / 8 % 2 = 1) (hz : b % 8 = 1)
    (hmem : s.mem s.registers.pc = b)
    (hsel : (DecodedOpcode.ofByte b).r16_p = some r16sel) :
    (let hl := s.registers.get_register_16bit .HL
     let src := s.registers.get_register_16bit (Register16Bit.ofR16 r16sel)
     let lower := add_with_carry (hl % 256) (src % 256) false
     let upper := add_with_carry (hl / 256) (src / 256) lower.info.carry
     ∃ s', step s = .ok s' ∧
       s'.registers.get_register_16bit .HL = upper.res * 256 + lower.res ∧
       s'.registers.f.carry = upper.info.carry ∧
       s'.registers.f.halfCarry = upper.info.halfCarry ∧
       s'.registers.f.subtraction = upper.info.subtraction ∧
       s'.registers.f.zero = s.registers.f.zero ∧
       s'.mem = s.mem) := by
  obtain ⟨ha, hbr, hcr, hdr, her, hhr, hlr, hsp, hpc⟩ := hwf
  have hb4 : b = 9 ∨ b = 25 ∨ b = 41 ∨ b = 57 := by omega
  rcases hb4 with rfl | rfl | rfl | rfl <;>
    simp only [DecodedOpcode.r16_p, DecodedOpcode.ofByte, DecodedOpcode.p,
      R16.tryFrom, Option.some.injEq, Nat.reduceDiv, Nat.reduceMod]
      at hsel <;>
    subst hsel <;>
    simp only [step, fetch_imm8, CpuState.read,
      Registers.get_register_16bit] <;>
    rw [hmem] <;>
    simp only [Instruction.ofByte, DecodedOpcode.ofByte, handle_block0,
      DecodedOpcode.p, DecodedOpcode.q, DecodedOpcode.r16_p, R16.tryFrom,
      Register16Bit.ofR16, Registers.get_register_16bit,
      Registers.set_register_16bit, Registers.set_flags_from_alu_res_info,
      Flags.remove, Flags.insert, Flags.inter, ne_eq, Nat.reduceDiv,
      Nat.reduceMod, reduceCtorEq, Nat.reduceEqDiff] <;>
    refine ⟨_, rfl, ?_, ?_, ?_, ?_, ?_, rfl⟩ <;>
    simp only [add_with_carry, Bool.not_true, Bool.not_false,
      Bool.and_true, Bool.and_false, Bool.or_false, Bool.false_or,
      Bool.true_and, Bool.false_and, Bool.or_true, Bool.true_or] <;>
    first
      | rfl
      | (rw [Bool.eq_iff_iff]
         simp only [Bool.or_eq_true, decide_eq_true_eq]
         split_ifs <;> omega)
      | (split_ifs <;> omega)

/-- Concrete state for the C3 witness: `HL = 0x0FFF`, `BC = 0x0001`, Zero
and Subtract flags initially set, opcode `0x09` (`ADD HL, BC`) at PC. -/
def addHlOpcodeState : CpuState :=
  { registers :=
      { Registers.new with
          h := 0x0F
          l := 0xFF
          c := 0x01
          f := ⟨true, true, false, false⟩ }
    mem := fun a => if a = 0 then 0x09 else 0 }

/-- Witness for C3 at opcode `0x09` with `HL = 0x0FFF`, `BC = 0x0001`:
the low-byte carry chains into the high-byte add (`HL` becomes `0x1000`,
HalfCarry set) and the initially-set Zero flag survives. -/
theorem add_hl_chains_byte_adds_witness :
    (let hl := addHlOpcodeState.registers.get_register_16bit .HL
     let src := addHlOpcodeState.registers.get_register_16bit
       (Register16Bit.ofR16 .BC)
     let lower := add_with_carry (hl % 256) (src % 256) false
     let upper := add_with_carry (hl / 256) (src / 256) lower.info.carry
     ∃ s', step addHlOpcodeState = .ok s' ∧
       s'.registers.get_register_16bit .HL = upper.res * 256 + lower.res ∧
       s'.registers.f.carry = upper.info.carry ∧
       s'.registers.f.halfCarry = upper.info.halfCarry ∧
       s'.registers.f.subtraction = upper.info.subtraction ∧
       s'.registers.f.zero = addHlOpcodeState.registers.f.zero ∧
       s'.mem = addHlOpcodeState.mem) :=
  add_hl_chains_byte_adds addHlOpcodeState 0x09 .BC (by decide) (by decide)
    (by decide) (by decide) (by decide) (by rfl) (by decide)

end RustyRetro
